import Mathlib

/-!
# e2core: instance registry, FFI result hand-off, field accessors, options

A shallow embedding of

* `sat/engine2/runtime/instance/mapper.go` (`ForIdentifier`, `Store`, `Remove`,
  `randomIdentifier`),
* `sat/engine2/api/ffiresult.go` (`getFfiResult`),
* `sat/engine2/api/request.go` (`requestGetField`, `requestSetField`),
* `e2core/options/options.go` (`NewWithModifiers`, the modifiers, `finalize`).

Go `int32`/`int` values are integers (`Int`); no arithmetic in the embedded code
can overflow.  A `[]byte` is `Option Bytes`, `none` being the `nil` slice.  A Go
`string` holding a key or a value read from guest memory is the byte sequence it
is made of.  Logging is not modelled (it has no effect on the state).
-/

namespace E2Core

/-! ## Errors -/

/-- Go `error` values.  `ErrKeyNotFound` is the sentinel
`capabilities.ErrKeyNotFound`, told apart from every other error by identity
(`err == capabilities.ErrKeyNotFound`); `New` is `errors.New`, `Wrap` is
`errors.Wrap`. -/
inductive GoError where
  | ErrKeyNotFound : GoError
  | New (msg : String) : GoError
  | Wrap (cause : GoError) (msg : String) : GoError
deriving DecidableEq, Repr

/-- The method `Error()` of an error: its text. -/
def GoError.Error : GoError → String
  | .ErrKeyNotFound => "key not found"
  | .New msg => msg
  | .Wrap cause msg => msg ++ ": " ++ cause.Error

/-- The error `capabilities.ErrCapabilityNotEnabled` of a disabled capability
(the message the test `TestEngineDisabledHTTP` expects). -/
def ErrCapabilityNotEnabled : GoError := .New "capability is not enabled"

/-! ## Bytes and guest memory -/

/-- The elements of a non-nil `[]byte`. -/
abbrev Bytes := List UInt8

/-- The conversion `[]byte(s)` of a text: its UTF-8 encoding. -/
def bytesOfString (s : String) : Bytes := s.toUTF8.data.toList

/-- The elements of a `[]byte` that may be `nil`: a `nil` slice has none. -/
def sliceBytes (b : Option Bytes) : Bytes := b.getD []

/-- Linear memory of a guest instance: the byte at every offset. -/
abbrev Memory := Int → UInt8

/-- Modelled from the spec: `Instance.ReadMemory` (the VM engine's
`readMemory(instance, offset, length) -> bytes`), missing from the sources: the
`size` bytes starting at `pointer`.  Bounds are the VM engine's business. -/
def ReadMemory (mem : Memory) (pointer size : Int) : Bytes :=
  (List.range size.toNat).map (fun (i : Nat) => mem (pointer + (i : Int)))

/-- Modelled from the spec: `Instance.WriteMemoryAtLocation` (the VM engine's
`writeMemory(instance, offset, bytes)`), missing from the sources: the bytes of
`data` are placed from `pointer` on, every other offset keeps its byte. -/
def WriteMemoryAtLocation (mem : Memory) (pointer : Int) (data : Bytes) : Memory :=
  fun a =>
    if pointer ≤ a ∧ a < pointer + (data.length : Int) then
      data.getD (a - pointer).toNat (mem a)
    else mem a

/-! ## FFI results and the call context -/

/-- The struct `FFIResult`: fields `Result []byte` and `Err error`, as
`getFfiResult` reads them. -/
structure FFIResult where
  Result : Option Bytes
  Err : Option GoError
deriving DecidableEq, Repr

/-- Modelled from the spec: `FFIResult.FFISize`, missing from the sources: the
"serialized size used by the Dispatcher to tell the guest how many bytes to
expect when draining the slot". -/
def FFIResult.FFISize (r : FFIResult) : Int :=
  match r.Err with
  | some e => ((bytesOfString e.Error).length : Int)
  | none => ((sliceBytes r.Result).length : Int)

/-- The call context `Ctx` of an instance: the ambient request carried by
`Context` (what `RequestFromContext` finds there, if anything) and the
pending-result slot. -/
structure Ctx (Req : Type) where
  Context : Option Req
  ffiResult : Option FFIResult

/-- Modelled from the spec: `Ctx.HasFFIResult`, missing from the sources: is a
result pending in the slot. -/
def Ctx.HasFFIResult {Req : Type} (c : Ctx Req) : Bool := c.ffiResult.isSome

/-- Modelled from the spec: `Ctx.SetFFIResult`, missing from the sources: a
"host operation that would populate the slot MUST fail fast if a previous
result has not yet been consumed"; otherwise the slot takes the result made of
the payload and the error, and that result is returned. -/
def Ctx.SetFFIResult {Req : Type} (c : Ctx Req) (result : Option Bytes) (err : Option GoError) :
    Except GoError (FFIResult × Ctx Req) :=
  match c.ffiResult with
  | some _ => .error (.New "cannot set new FFI result, existing result not yet consumed")
  | none =>
    let r : FFIResult := { Result := result, Err := err }
    .ok (r, { c with ffiResult := some r })

/-- Modelled from the spec: `Ctx.UseFFIResult`, missing from the sources:
draining fails "if the slot is empty"; otherwise "consuming the slot removes
its content" and hands the result over. -/
def Ctx.UseFFIResult {Req : Type} (c : Ctx Req) : Except GoError (FFIResult × Ctx Req) :=
  match c.ffiResult with
  | none => .error (.New "cannot use FFI result, none stored")
  | some r => .ok (r, { c with ffiResult := none })

/-- Modelled from the spec: `RequestFromContext`, missing from the sources: the
ambient request of the call context, `nil` when there is none. -/
def RequestFromContext {Req : Type} (c : Option Req) : Option Req := c

/-! ## Instances and the registry -/

/-- The state of one `Instance` object: its guest memory and its call
context (`Ctx()`). -/
structure Instance (Req : Type) where
  memory : Memory
  ctx : Ctx Req

/-- A handle `*Instance`: the address of an instance object. -/
abbrev Handle := Nat

/-- The state the host functions work on: the global `instanceMapper`
(a `sync.Map` from `int32` to `*Instance`) and the instance objects the handles
point to. -/
structure World (Req : Type) where
  instanceMapper : Int → Option Handle
  heap : Handle → Instance Req

/-- The instance object behind a handle, with its call context replaced. -/
def World.setCtx {Req : Type} (w : World Req) (h : Handle) (c : Ctx Req) : World Req :=
  { w with heap := Function.update w.heap h { w.heap h with ctx := c } }

/-- The instance object behind a handle, with its memory replaced. -/
def World.setMemory {Req : Type} (w : World Req) (h : Handle) (m : Memory) : World Req :=
  { w with heap := Function.update w.heap h { w.heap h with memory := m } }

/-- `ForIdentifier` of mapper.go. -/
def ForIdentifier {Req : Type} (w : World Req) (ident : Int) (needsFFIResult : Bool) :
    Except GoError Handle :=
  match w.instanceMapper ident with
  | none => .error (.New "instance does not exist")
  | some inst =>
    if needsFFIResult && (w.heap inst).ctx.HasFFIResult then
      .error (.New "cannot use instance for host call with existing call in progress")
    else
      .ok inst

/-- The constant `math.MaxInt32`. -/
def MaxInt32 : Nat := 2147483647

/-- One call `rand.Int(rand.Reader, max)` of the Go standard library, as its
contract has it: it fails with an error, or "returns a uniform random value in
[0, max)". -/
inductive RandInt (max : Nat) where
  | fail (err : GoError) : RandInt max
  | num (n : Nat) (lt : n < max) : RandInt max

/-- `randomIdentifier` of mapper.go, on the outcome of its call of `rand.Int`
with bound `big.NewInt(math.MaxInt32)`.  The pair `(-1, err)` is the `error`
case. -/
def randomIdentifier (r : RandInt MaxInt32) : Except GoError Int :=
  match r with
  | .fail err => .error (.Wrap err "failed to rand.Int")
  | .num n _ => .ok (n : Int)

/-- `Store` of mapper.go.  `rs` lists the outcomes of the calls of `rand.Int`
to come, one per turn of the loop; the rest of them is returned.  `none` stands
for a loop that is still turning when `rs` is used up.  The pair `(-1, err)` is
the `error` case. -/
def Store {Req : Type} (w : World Req) (inst : Handle) :
    List (RandInt MaxInt32) → Option (Except GoError Int × World Req × List (RandInt MaxInt32))
  | [] => none
  | r :: rs =>
    match randomIdentifier r with
    | .error err => some (.error (.Wrap err "failed to randomIdentifier"), w, rs)
    | .ok ident =>
      if (w.instanceMapper ident).isSome then
        Store w inst rs
      else
        some (.ok ident, { w with instanceMapper := Function.update w.instanceMapper ident (some inst) }, rs)

/-- `Remove` of mapper.go. -/
def Remove {Req : Type} (w : World Req) (ident : Int) : World Req :=
  { w with instanceMapper := Function.update w.instanceMapper ident none }

/-- Consecutive calls of `Store`, one per handle of the list, all of them
successful, with no `Remove` in between: the identifiers they return, in order,
the registry they leave and the outcomes of `rand.Int` not yet used.  `none`
when a call fails or its loop is still turning when the outcomes are used up. -/
def storeAll {Req : Type} (w : World Req) :
    List Handle → List (RandInt MaxInt32) → Option (List Int × World Req × List (RandInt MaxInt32))
  | [], rs => some ([], w, rs)
  | inst :: insts, rs =>
    match Store w inst rs with
    | some (.ok ident, w1, rs1) =>
      match storeAll w1 insts rs1 with
      | some (idents, w2, rs2) => some (ident :: idents, w2, rs2)
      | none => none
    | _ => none

/-! ## The host API -/

/-- The handler `capabilities.NewRequestHandler(config, req)` builds, of the
external capability policy: `GetField` returns a value and an error;
`SetField` returns an error and may change the request it works on, so it also
returns the request as it leaves it. -/
structure RequestHandler (Req : Type) where
  GetField : Int → Bytes → Option Bytes × Option GoError
  SetField : Int → Bytes → Bytes → Option Req × Option GoError

/-- The struct `defaultAPI`, as far as the field accessors use it: the
configured capability policy, which gives a handler for an ambient request
(`capabilities.NewRequestHandler(*d.capabilities.RequestConfig, req)`). -/
structure defaultAPI (Req : Type) where
  NewRequestHandler : Option Req → RequestHandler Req

/-- `getFfiResult` of ffiresult.go (its receiver is used for logging only). -/
def getFfiResult {Req : Type} (w : World Req) (pointer identifier : Int) : Int × World Req :=
  match ForIdentifier w identifier false with
  | .error _ => (-1, w)
  | .ok inst =>
    match (w.heap inst).ctx.UseFFIResult with
    | .error _ => (-1, w)
    | .ok (result, c) =>
      let w1 := w.setCtx inst c
      let data : Option Bytes :=
        match result.Err with
        | some e => some (bytesOfString e.Error)
        | none => result.Result
      (0, w1.setMemory inst (WriteMemoryAtLocation (w1.heap inst).memory pointer (sliceBytes data)))

/-- `requestGetField` of request.go. -/
def requestGetField {Req : Type} (d : defaultAPI Req) (w : World Req)
    (fieldType keyPointer keySize identifier : Int) : Int × World Req :=
  match ForIdentifier w identifier true with
  | .error _ => (-1, w)
  | .ok inst =>
    let keyBytes := ReadMemory (w.heap inst).memory keyPointer keySize
    let key := keyBytes
    let req := RequestFromContext (w.heap inst).ctx.Context
    let handler := d.NewRequestHandler req
    let got := handler.GetField fieldType key
    -- the `if err != nil` block: `none` is its `return -1`
    let checked : Option (Option Bytes × Option GoError) :=
      match got.2 with
      | some err =>
        if err = GoError.ErrKeyNotFound then some (some [], none)
        else none
      | none => some (got.1, none)
    match checked with
    | none => (-1, w)
    | some (val, err) =>
      match (w.heap inst).ctx.SetFFIResult val err with
      | .error _ => (-1, w)
      | .ok (result, c) => (result.FFISize, w.setCtx inst c)

/-- `requestSetField` of request.go.  The `err` of
`if err := handler.SetField(...); err != nil` lives in the `if` statement only;
the `err` handed to `SetFFIResult` is the one `ForIdentifier` returned. -/
def requestSetField {Req : Type} (d : defaultAPI Req) (w : World Req)
    (fieldType keyPointer keySize valPointer valSize identifier : Int) : Int × World Req :=
  match ForIdentifier w identifier true with
  | .error _ => (-1, w)
  | .ok inst =>
    let err : Option GoError := none
    let keyBytes := ReadMemory (w.heap inst).memory keyPointer keySize
    let key := keyBytes
    let valBytes := ReadMemory (w.heap inst).memory valPointer valSize
    let val := valBytes
    let req := RequestFromContext (w.heap inst).ctx.Context
    let handler := d.NewRequestHandler req
    let set := handler.SetField fieldType key val
    let ctx1 : Ctx Req := { (w.heap inst).ctx with Context := set.1 }
    match ctx1.SetFFIResult none err with
    | .error _ => (-1, w.setCtx inst ctx1)
    | .ok (result, c) => (result.FFISize, w.setCtx inst c)

/-! ## Options -/

/-- The struct `CollectorConfig`. -/
structure CollectorConfig where
  Endpoint : String

/-- The struct `HoneycombConfig`. -/
structure HoneycombConfig where
  Endpoint : String
  APIKey : String
  Dataset : String

/-- The struct `TracerConfig`; the two pointer fields may be `nil`. -/
structure TracerConfig where
  TracerType : String
  ServiceName : String
  Probability : Float
  Collector : Option CollectorConfig
  HoneycombConfig : Option HoneycombConfig

/-- The struct `Options`; `RunSchedules` is a `*bool`, `AuthCacheTTL` a
`time.Duration` (nanoseconds). -/
structure Options where
  Features : List String
  BundlePath : String
  RunSchedules : Option Bool
  ControlPlane : String
  AuthCacheTTL : Int
  UpstreamAddress : String
  EnvironmentToken : String
  StaticPeers : String
  AppName : String
  Domain : String
  HTTPPort : Int
  TLSPort : Int
  TracerConfig : TracerConfig

/-- The zero value `TracerConfig{}`. -/
def TracerConfig.zero : TracerConfig :=
  { TracerType := "", ServiceName := "", Probability := 0, Collector := none,
    HoneycombConfig := none }

/-- The zero value `Options{}`. -/
def Options.zero : Options :=
  { Features := [], BundlePath := "", RunSchedules := none, ControlPlane := "",
    AuthCacheTTL := 0, UpstreamAddress := "", EnvironmentToken := "", StaticPeers := "",
    AppName := "", Domain := "", HTTPPort := 0, TLSPort := 0, TracerConfig := TracerConfig.zero }

/-- What `envconfig.Process` loads into an `Options` from an environment that
sets none of the variables: the `default=` values of the struct tags, the zero
value elsewhere, and `nil` for the two `noinit` pointers. -/
def Options.envDefault : Options :=
  { Features := [], BundlePath := "", RunSchedules := some true, ControlPlane := "",
    AuthCacheTTL := 600000000000, UpstreamAddress := "", EnvironmentToken := "",
    StaticPeers := "", AppName := "E2Core", Domain := "", HTTPPort := 8080, TLSPort := 443,
    TracerConfig :=
      { TracerType := "none", ServiceName := "e2core", Probability := 0.5, Collector := none,
        HoneycombConfig := none } }

/-- The type `Modifier`: a `func(*Options)`, as the change it makes. -/
abbrev Modifier := Options → Options

/-- `UseBundlePath` of options.go. -/
def UseBundlePath (path : String) : Modifier :=
  fun opts => { opts with BundlePath := path }

/-- `AppName` of options.go. -/
def AppName (name : String) : Modifier :=
  fun opts => { opts with AppName := name }

/-- `Domain` of options.go. -/
def Domain (domain : String) : Modifier :=
  fun opts => { opts with Domain := domain }

/-- `HTTPPort` of options.go. -/
def HTTPPort (port : Int) : Modifier :=
  fun opts => { opts with HTTPPort := port }

/-- `TLSPort` of options.go. -/
def TLSPort (port : Int) : Modifier :=
  fun opts => { opts with TLSPort := port }

/-- The library function `strings.TrimSuffix`. -/
def TrimSuffix (s suffix : String) : String :=
  if s.endsWith suffix then s.dropRight suffix.length else s

/-- `Options.finalize` of options.go.  `env` is what
`envconfig.Process(context.Background(), &envOpts)` does in the environment of
the process: it fails, or fills `envOpts`. -/
def Options.finalize (env : Except GoError Options) (o : Options) : Except GoError Options :=
  match env with
  | .error err => .error (.Wrap err "envconfig.Process")
  | .ok envOpts =>
    let o := { o with ControlPlane := TrimSuffix envOpts.ControlPlane "/" }
    let o := { o with AuthCacheTTL := envOpts.AuthCacheTTL }
    let o :=
      if o.RunSchedules = none then
        if envOpts.RunSchedules ≠ none then { o with RunSchedules := envOpts.RunSchedules } else o
      else o
    let o := if o.AppName = "" then { o with AppName := envOpts.AppName } else o
    let o := if o.Domain = "" then { o with Domain := envOpts.Domain } else o
    let o := if o.HTTPPort = (0 : Int) then { o with HTTPPort := envOpts.HTTPPort } else o
    let o := if o.TLSPort = (0 : Int) then { o with TLSPort := envOpts.TLSPort } else o
    let o := { o with Features := envOpts.Features }
    let o := { o with EnvironmentToken := "" }
    let o := { o with TracerConfig := TracerConfig.zero }
    let o := { o with StaticPeers := envOpts.StaticPeers }
    let o := { o with EnvironmentToken := envOpts.EnvironmentToken }
    let o := { o with TracerConfig := envOpts.TracerConfig }
    .ok o

/-- `NewWithModifiers` of options.go, in the environment `env`. -/
def NewWithModifiers (env : Except GoError Options) (mods : List Modifier) :
    Except GoError Options :=
  let opts := mods.foldl (fun opts mod => mod opts) Options.zero
  match Options.finalize env opts with
  | .error err => .error (.Wrap err "opts.finalize")
  | .ok opts => .ok opts

/-! ## Auxiliary definitions and sample states -/

/-- The bytes `getFfiResult` selects from a result: those of the error text when
there is an error, the payload otherwise. -/
def drainBytes (r : FFIResult) : Bytes :=
  match r.Err with
  | some e => bytesOfString e.Error
  | none => sliceBytes r.Result

/-- A registry with one instance: identifier 7 names handle 0, whose slot is
empty and whose memory is zeroed. -/
def sampleWorld : World Unit :=
  { instanceMapper := fun i => if i = 7 then some 0 else none
    heap := fun _ => { memory := fun _ => 0, ctx := { Context := none, ffiResult := none } } }

/-- A capability policy for the samples: field type 0 holds the bytes 1, 2, 3,
field type 1 has no such key, every other field type is not enabled; only field
type 0 can be set. -/
def sampleAPI : defaultAPI Unit :=
  { NewRequestHandler := fun req =>
      { GetField := fun fieldType _ =>
          if fieldType = 0 then (some [1, 2, 3], none)
          else if fieldType = 1 then (none, some GoError.ErrKeyNotFound)
          else (none, some ErrCapabilityNotEnabled)
        SetField := fun fieldType _ _ =>
          if fieldType = 0 then (req, none) else (req, some ErrCapabilityNotEnabled) } }

/-- The sample policy, but with field type 1 holding an empty value. -/
def sampleAPIEmpty : defaultAPI Unit :=
  { NewRequestHandler := fun req =>
      { GetField := fun _ _ => (some [], none)
        SetField := fun _ _ _ => (req, none) } }

/-- The sample registry with a result pending for handle 0. -/
def samplePending (r : FFIResult) : World Unit :=
  sampleWorld.setCtx 0 { Context := none, ffiResult := some r }

/-! ## The registry -/

section Registry

variable {Req : Type}

theorem ForIdentifier_false (w : World Req) (ident : Int) :
    ForIdentifier w ident false =
      match w.instanceMapper ident with
      | none => .error (.New "instance does not exist")
      | some inst => .ok inst := by
  unfold ForIdentifier
  cases w.instanceMapper ident <;> simp

theorem ForIdentifier_true_of_empty (w : World Req) (ident : Int) (inst : Handle)
    (hreg : w.instanceMapper ident = some inst) (hslot : (w.heap inst).ctx.ffiResult = none) :
    ForIdentifier w ident true = .ok inst := by
  simp [ForIdentifier, hreg, Ctx.HasFFIResult, hslot]

theorem ForIdentifier_true_of_pending (w : World Req) (ident : Int) (inst : Handle) (r : FFIResult)
    (hreg : w.instanceMapper ident = some inst) (hslot : (w.heap inst).ctx.ffiResult = some r) :
    ForIdentifier w ident true =
      .error (.New "cannot use instance for host call with existing call in progress") := by
  simp [ForIdentifier, hreg, Ctx.HasFFIResult, hslot]

theorem ForIdentifier_unregistered (w : World Req) (ident : Int) (b : Bool)
    (hreg : w.instanceMapper ident = none) :
    ForIdentifier w ident b = .error (.New "instance does not exist") := by
  simp [ForIdentifier, hreg]

/-- A successful `Store` returns an identifier of `[0, MaxInt32)` that was not
a key of the registry, and only adds that key, bound to the handle. -/
theorem Store_ok (w : World Req) (inst : Handle) (rs : List (RandInt MaxInt32)) (ident : Int)
    (w1 : World Req) (rs1 : List (RandInt MaxInt32))
    (h : Store w inst rs = some (.ok ident, w1, rs1)) :
    w.instanceMapper ident = none ∧
      w1 = { w with instanceMapper := Function.update w.instanceMapper ident (some inst) } ∧
      0 ≤ ident ∧ ident < (MaxInt32 : Int) := by
  induction rs with
  | nil => simp [Store] at h
  | cons r rs ih =>
    cases r with
    | fail err => simp [Store, randomIdentifier] at h
    | num n lt =>
      simp only [Store, randomIdentifier] at h
      by_cases hk : (w.instanceMapper (n : Int)).isSome = true
      · rw [if_pos hk] at h
        exact ih h
      · rw [if_neg hk] at h
        simp only [Option.some.injEq, Prod.mk.injEq, Except.ok.injEq] at h
        obtain ⟨hid, hw, -⟩ := h
        subst hid
        refine ⟨?_, hw.symm, Int.ofNat_nonneg n, by exact_mod_cast lt⟩
        cases hm : w.instanceMapper (n : Int) with
        | none => rfl
        | some x => simp [hm] at hk

/-- The keys of the registry after successful consecutive `Store` calls: the
old keys and the returned identifiers, which are new and pairwise distinct. -/
theorem storeAll_spec (insts : List Handle) :
    ∀ (w : World Req) (rs : List (RandInt MaxInt32)) (idents : List Int) (w1 : World Req)
      (rs1 : List (RandInt MaxInt32)),
      storeAll w insts rs = some (idents, w1, rs1) →
      idents.Nodup ∧ (∀ i ∈ idents, w.instanceMapper i = none) ∧
        (∀ i, (w1.instanceMapper i).isSome ↔ ((w.instanceMapper i).isSome ∨ i ∈ idents)) := by
  induction insts with
  | nil =>
    intro w rs idents w1 rs1 h
    simp only [storeAll, Option.some.injEq, Prod.mk.injEq] at h
    obtain ⟨rfl, rfl, -⟩ := h
    simp
  | cons inst insts ih =>
    intro w rs idents w1 rs1 h
    simp only [storeAll] at h
    split at h
    · rename_i ident wa rsa hstore
      split at h
      · rename_i ids wb rsb hrest
        simp only [Option.some.injEq, Prod.mk.injEq] at h
        obtain ⟨rfl, rfl, -⟩ := h
        obtain ⟨hnew, hwa, -, -⟩ := Store_ok w inst rs ident wa rsa hstore
        obtain ⟨hnd, hfresh, hkeys⟩ := ih wa rsa ids wb rsb hrest
        have hwa_key : ∀ i, wa.instanceMapper i =
            if i = ident then some inst else w.instanceMapper i := by
          intro i
          rw [hwa]
          simp [Function.update_apply]
        refine ⟨?_, ?_, ?_⟩
        · refine List.nodup_cons.mpr ⟨?_, hnd⟩
          intro hmem
          have := hfresh ident hmem
          rw [hwa_key] at this
          simp at this
        · intro i hi
          rcases List.mem_cons.mp hi with rfl | hi
          · exact hnew
          · have := hfresh i hi
            rw [hwa_key] at this
            by_cases hii : i = ident
            · simp [hii] at this
            · simpa [hii] using this
        · intro i
          rw [hkeys i, hwa_key i]
          by_cases hii : i = ident
          · simp [hii]
          · simp [hii]
      · simp at h
    · simp at h

end Registry

/-! ## The host functions -/

section HostFunctions

variable {Req : Type}

@[simp]
theorem setCtx_instanceMapper (w : World Req) (h : Handle) (c : Ctx Req) :
    (w.setCtx h c).instanceMapper = w.instanceMapper := rfl

@[simp]
theorem setMemory_instanceMapper (w : World Req) (h : Handle) (m : Memory) :
    (w.setMemory h m).instanceMapper = w.instanceMapper := rfl

@[simp]
theorem setCtx_heap_same (w : World Req) (h : Handle) (c : Ctx Req) :
    (w.setCtx h c).heap h = { w.heap h with ctx := c } := by
  simp [World.setCtx]

@[simp]
theorem setMemory_heap_same (w : World Req) (h : Handle) (m : Memory) :
    (w.setMemory h m).heap h = { w.heap h with memory := m } := by
  simp [World.setMemory]

theorem setCtx_heap_other (w : World Req) (h h1 : Handle) (c : Ctx Req) (hne : h1 ≠ h) :
    (w.setCtx h c).heap h1 = w.heap h1 := by
  simp [World.setCtx, Function.update_apply, hne]

theorem setMemory_heap_other (w : World Req) (h h1 : Handle) (m : Memory) (hne : h1 ≠ h) :
    (w.setMemory h m).heap h1 = w.heap h1 := by
  simp [World.setMemory, Function.update_apply, hne]

/-- Reading back what was written: the bytes written at `pointer`. -/
theorem ReadMemory_WriteMemoryAtLocation (mem : Memory) (pointer : Int) (data : Bytes) :
    ReadMemory (WriteMemoryAtLocation mem pointer data) pointer (data.length : Int) = data := by
  apply List.ext_getElem
  · simp only [ReadMemory, List.length_map, List.length_range, Int.toNat_ofNat]
  · intro i h1 h2
    have hcond : pointer ≤ pointer + (i : Int) ∧
        pointer + (i : Int) < pointer + (data.length : Int) := by
      constructor <;> omega
    have hidx : (pointer + (i : Int) - pointer).toNat = i := by omega
    simp only [ReadMemory, List.getElem_map, List.getElem_range, WriteMemoryAtLocation,
      if_pos hcond, hidx]
    rw [List.getD_eq_getElem?_getD, List.getElem?_eq_getElem h2]
    rfl

/-- Offsets outside the written range keep their byte. -/
theorem WriteMemoryAtLocation_outside (mem : Memory) (pointer : Int) (data : Bytes) (a : Int)
    (h : ¬ (pointer ≤ a ∧ a < pointer + (data.length : Int))) :
    WriteMemoryAtLocation mem pointer data a = mem a := by
  simp only [WriteMemoryAtLocation, if_neg h]

/-- Writing no byte changes nothing. -/
theorem WriteMemoryAtLocation_nil (mem : Memory) (pointer : Int) :
    WriteMemoryAtLocation mem pointer [] = mem := by
  funext a
  apply WriteMemoryAtLocation_outside
  simp only [List.length_nil, Int.Nat.cast_ofNat_Int, add_zero]
  omega

/-- `getFfiResult` on a registered instance with a pending result. -/
theorem getFfiResult_of_pending (w : World Req) (pointer ident : Int) (inst : Handle)
    (r : FFIResult) (hreg : w.instanceMapper ident = some inst)
    (hslot : (w.heap inst).ctx.ffiResult = some r) :
    getFfiResult w pointer ident =
      (0, (w.setCtx inst { (w.heap inst).ctx with ffiResult := none }).setMemory inst
        (WriteMemoryAtLocation (w.heap inst).memory pointer (drainBytes r))) := by
  simp only [getFfiResult, ForIdentifier_false, hreg, Ctx.UseFFIResult, hslot, drainBytes,
    setCtx_heap_same]
  cases r.Err <;> simp [sliceBytes]

/-- `getFfiResult` on an identifier that is not registered, or is registered
with an empty slot. -/
theorem getFfiResult_of_nothing (w : World Req) (pointer ident : Int)
    (h : w.instanceMapper ident = none ∨
      ∃ inst : Handle, w.instanceMapper ident = some inst ∧ (w.heap inst).ctx.ffiResult = none) :
    getFfiResult w pointer ident = (-1, w) := by
  rcases h with hreg | ⟨inst, hreg, hslot⟩
  · simp [getFfiResult, ForIdentifier_false, hreg]
  · simp [getFfiResult, ForIdentifier_false, hreg, Ctx.UseFFIResult, hslot]

/-- `getFfiResult` returns 0 only for a registered instance with a pending
result. -/
theorem getFfiResult_zero (w : World Req) (pointer ident : Int)
    (h : (getFfiResult w pointer ident).1 = 0) :
    ∃ (inst : Handle) (r : FFIResult),
      w.instanceMapper ident = some inst ∧ (w.heap inst).ctx.ffiResult = some r := by
  cases hreg : w.instanceMapper ident with
  | none => simp [getFfiResult, ForIdentifier_false, hreg] at h
  | some inst =>
    cases hslot : (w.heap inst).ctx.ffiResult with
    | none => simp [getFfiResult, ForIdentifier_false, hreg, Ctx.UseFFIResult, hslot] at h
    | some r => exact ⟨inst, r, rfl, hslot⟩

/-- `requestGetField` either returns -1 and changes nothing, or found the
instance with an empty slot and put an error-free result into it. -/
theorem requestGetField_cases (d : defaultAPI Req) (w : World Req)
    (fieldType keyPointer keySize ident : Int) :
    requestGetField d w fieldType keyPointer keySize ident = (-1, w) ∨
      ∃ (inst : Handle) (val : Option Bytes),
        w.instanceMapper ident = some inst ∧ (w.heap inst).ctx.ffiResult = none ∧
        requestGetField d w fieldType keyPointer keySize ident =
          (FFIResult.FFISize { Result := val, Err := none },
            w.setCtx inst { (w.heap inst).ctx with
              ffiResult := some { Result := val, Err := none } }) := by
  cases hreg : w.instanceMapper ident with
  | none => left; simp [requestGetField, ForIdentifier_unregistered w ident true hreg]
  | some inst =>
    cases hslot : (w.heap inst).ctx.ffiResult with
    | some r =>
      left; simp [requestGetField, ForIdentifier_true_of_pending w ident inst r hreg hslot]
    | none =>
      simp only [requestGetField, ForIdentifier_true_of_empty w ident inst hreg hslot]
      rcases hgot : (d.NewRequestHandler (RequestFromContext (w.heap inst).ctx.Context)).GetField
        fieldType (ReadMemory (w.heap inst).memory keyPointer keySize) with ⟨val, err⟩
      cases err with
      | none =>
        right
        exact ⟨inst, val, rfl, hslot, by simp [Ctx.SetFFIResult, hslot]⟩
      | some e =>
        by_cases he : e = GoError.ErrKeyNotFound
        · right
          exact ⟨inst, some [], rfl, hslot, by simp [Ctx.SetFFIResult, hslot, he]⟩
        · left
          simp [he]

/-- `requestGetField` on a registered instance with an empty slot, when the
policy's `GetField` fails with an error other than `ErrKeyNotFound`: -1, and
nothing is stored. -/
theorem requestGetField_of_policy_error (d : defaultAPI Req) (w : World Req)
    (fieldType keyPointer keySize ident : Int) (inst : Handle) (e : GoError)
    (hreg : w.instanceMapper ident = some inst) (hslot : (w.heap inst).ctx.ffiResult = none)
    (hpol : ((d.NewRequestHandler (RequestFromContext (w.heap inst).ctx.Context)).GetField
      fieldType (ReadMemory (w.heap inst).memory keyPointer keySize)).2 = some e)
    (he : e ≠ GoError.ErrKeyNotFound) :
    requestGetField d w fieldType keyPointer keySize ident = (-1, w) := by
  simp [requestGetField, ForIdentifier_true_of_empty w ident inst hreg hslot, hpol, he]

/-- `requestGetField` on a registered instance with an empty slot, when the
policy's `GetField` returns a value and no error, or fails with
`ErrKeyNotFound`: the value (the empty one for `ErrKeyNotFound`) goes into the
slot. -/
theorem requestGetField_of_value (d : defaultAPI Req) (w : World Req)
    (fieldType keyPointer keySize ident : Int) (inst : Handle) (val : Option Bytes)
    (hreg : w.instanceMapper ident = some inst) (hslot : (w.heap inst).ctx.ffiResult = none)
    (hpol :
      (d.NewRequestHandler (RequestFromContext (w.heap inst).ctx.Context)).GetField
          fieldType (ReadMemory (w.heap inst).memory keyPointer keySize) = (val, none) ∨
      (((d.NewRequestHandler (RequestFromContext (w.heap inst).ctx.Context)).GetField
          fieldType (ReadMemory (w.heap inst).memory keyPointer keySize)).2 =
            some GoError.ErrKeyNotFound ∧ val = some [])) :
    requestGetField d w fieldType keyPointer keySize ident =
      (FFIResult.FFISize { Result := val, Err := none },
        w.setCtx inst { (w.heap inst).ctx with
          ffiResult := some { Result := val, Err := none } }) := by
  rcases hpol with hpol | ⟨hpol, rfl⟩
  · simp [requestGetField, ForIdentifier_true_of_empty w ident inst hreg hslot, hpol,
      Ctx.SetFFIResult, hslot]
  · simp [requestGetField, ForIdentifier_true_of_empty w ident inst hreg hslot, hpol,
      Ctx.SetFFIResult, hslot]

/-- `requestSetField` on a registered instance with an empty slot: whatever the
policy's `SetField` returns, the slot takes a result with no payload and no
error, and the size of that result is returned. -/
theorem requestSetField_of_empty (d : defaultAPI Req) (w : World Req)
    (fieldType keyPointer keySize valPointer valSize ident : Int) (inst : Handle)
    (hreg : w.instanceMapper ident = some inst) (hslot : (w.heap inst).ctx.ffiResult = none) :
    (requestSetField d w fieldType keyPointer keySize valPointer valSize ident).1 = 0 ∧
      (((requestSetField d w fieldType keyPointer keySize valPointer valSize ident).2.heap
        inst).ctx.ffiResult = some { Result := none, Err := none }) := by
  simp [requestSetField, ForIdentifier_true_of_empty w ident inst hreg hslot, Ctx.SetFFIResult,
    hslot, FFIResult.FFISize, sliceBytes]

end HostFunctions

/-! ## Claims on the registry -/

/-- C7: lookup correctness.  `ForIdentifier(id, false)` returns a handle exactly
when the registry maps the identifier to that handle, and fails with
"instance does not exist" exactly when the identifier is not registered; right
after `Store(inst)` returned `ident`, `ForIdentifier(ident, false)` yields
`inst` itself; after `Remove(id)`, `ForIdentifier(id, _)` fails, whatever the
flag. -/
theorem ForIdentifier_lookup_correct {Req : Type} (w : World Req) (inst : Handle)
    (rs : List (RandInt MaxInt32)) (ident : Int) (w1 : World Req)
    (rs1 : List (RandInt MaxInt32)) (hstore : Store w inst rs = some (.ok ident, w1, rs1))
    (w0 : World Req) (id : Int) (needsFFIResult : Bool) :
    (∀ h : Handle, ForIdentifier w0 id false = .ok h ↔ w0.instanceMapper id = some h) ∧
      (ForIdentifier w0 id false = .error (.New "instance does not exist") ↔
        w0.instanceMapper id = none) ∧
      ForIdentifier w1 ident false = .ok inst ∧
      ForIdentifier (Remove w0 id) id needsFFIResult =
        .error (.New "instance does not exist") := by
  refine ⟨?_, ?_, ?_, ?_⟩
  · intro h
    rw [ForIdentifier_false]
    cases w0.instanceMapper id <;> simp
  · rw [ForIdentifier_false]
    cases w0.instanceMapper id <;> simp
  · obtain ⟨-, hw1, -, -⟩ := Store_ok w inst rs ident w1 rs1 hstore
    rw [ForIdentifier_false, hw1]
    simp
  · apply ForIdentifier_unregistered
    simp [Remove]

/-- C7, on the sample registry: `Store` of handle 3 draws 7 (taken) and then 5,
returns 5, and the lookups behave as stated. -/
theorem ForIdentifier_lookup_correct_witness :
    ∃ w1 : World Unit,
      Store sampleWorld 3 [.num 7 (by decide), .num 5 (by decide)] = some (.ok 5, w1, []) ∧
      ((∀ h : Handle, ForIdentifier sampleWorld 7 false = .ok h ↔
          sampleWorld.instanceMapper 7 = some h) ∧
        (ForIdentifier sampleWorld 7 false = .error (.New "instance does not exist") ↔
          sampleWorld.instanceMapper 7 = none) ∧
        ForIdentifier w1 5 false = .ok 3 ∧
        ForIdentifier (Remove sampleWorld 7) 7 true =
          .error (.New "instance does not exist")) :=
  ⟨_, rfl, ForIdentifier_lookup_correct sampleWorld 3 [.num 7 (by decide), .num 5 (by decide)] 5 _ []
    rfl sampleWorld 7 true⟩

/-- C8: identifier uniqueness.  The identifiers returned by successful
consecutive `Store` calls, with no `Remove` in between, are pairwise distinct,
for every outcome of the random source, and none of them was a key of the
registry the calls started from. -/
theorem storeAll_idents_nodup {Req : Type} (w : World Req) (insts : List Handle)
    (rs : List (RandInt MaxInt32)) (idents : List Int) (w1 : World Req)
    (rs1 : List (RandInt MaxInt32)) (h : storeAll w insts rs = some (idents, w1, rs1)) :
    idents.Nodup ∧ ∀ i ∈ idents, w.instanceMapper i = none := by
  obtain ⟨hnd, hfresh, -⟩ := storeAll_spec insts w rs idents w1 rs1 h
  exact ⟨hnd, hfresh⟩

/-- C8, on the sample registry: two calls, whose draws are 7 (taken), 5, 5
(taken by then) and 9, return 5 and 9. -/
theorem storeAll_idents_nodup_witness :
    ∃ w1 : World Unit,
      storeAll sampleWorld [1, 2]
          [.num 7 (by decide), .num 5 (by decide), .num 5 (by decide), .num 9 (by decide)] =
        some ([5, 9], w1, []) ∧
      (([5, 9] : List Int).Nodup ∧ ∀ i ∈ ([5, 9] : List Int), sampleWorld.instanceMapper i = none) :=
  ⟨_, rfl, storeAll_idents_nodup sampleWorld [1, 2]
    [.num 7 (by decide), .num 5 (by decide), .num 5 (by decide), .num 9 (by decide)] [5, 9] _ []
    rfl⟩

/-- C9 as stated fails at the largest `int32`: no outcome of the random source
makes `randomIdentifier` return `2^31 - 1`. -/
theorem randomIdentifier_never_MaxInt32 :
    ¬ ∃ r : RandInt MaxInt32, randomIdentifier r = .ok (2 ^ 31 - 1) := by
  rintro ⟨r, hr⟩
  cases r with
  | fail err => simp [randomIdentifier] at hr
  | num n lt =>
    simp only [randomIdentifier, Except.ok.injEq] at hr
    unfold MaxInt32 at lt
    omega

/-- C9, amended: the values `randomIdentifier`, and therefore `Store`, can
return on success are exactly those of `[0, 2^31 - 1)`: a returned identifier
`v` satisfies `0 ≤ v ≤ 2^31 - 2`, and every such `v` is returned for some
outcome of the random source (by `Store` too, when `v` is not registered). -/
theorem randomIdentifier_range {Req : Type} (w : World Req) (inst : Handle) (v : Int) :
    (∀ r : RandInt MaxInt32, randomIdentifier r = .ok v → 0 ≤ v ∧ v ≤ 2 ^ 31 - 2) ∧
      (∀ (rs rs1 : List (RandInt MaxInt32)) (w1 : World Req),
        Store w inst rs = some (.ok v, w1, rs1) → 0 ≤ v ∧ v ≤ 2 ^ 31 - 2) ∧
      (0 ≤ v ∧ v ≤ 2 ^ 31 - 2 → ∃ r : RandInt MaxInt32, randomIdentifier r = .ok v) ∧
      (0 ≤ v ∧ v ≤ 2 ^ 31 - 2 → w.instanceMapper v = none →
        ∃ (r : RandInt MaxInt32) (w1 : World Req), Store w inst [r] = some (.ok v, w1, [])) := by
  have hreach : 0 ≤ v ∧ v ≤ 2 ^ 31 - 2 → ∃ r : RandInt MaxInt32, randomIdentifier r = .ok v := by
    rintro ⟨h0, h1⟩
    refine ⟨.num v.toNat (by unfold MaxInt32; omega), ?_⟩
    simp only [randomIdentifier, Except.ok.injEq]
    omega
  refine ⟨?_, ?_, hreach, ?_⟩
  · intro r hr
    cases r with
    | fail err => simp [randomIdentifier] at hr
    | num n lt =>
      simp only [randomIdentifier, Except.ok.injEq] at hr
      unfold MaxInt32 at lt
      omega
  · intro rs rs1 w1 hs
    obtain ⟨-, -, h0, h1⟩ := Store_ok w inst rs v w1 rs1 hs
    unfold MaxInt32 at h1
    omega
  · intro hv hfree
    obtain ⟨r, hr⟩ := hreach hv
    refine ⟨r, { w with instanceMapper := Function.update w.instanceMapper v (some inst) }, ?_⟩
    simp [Store, hr, hfree]

/-- C9, amended, at 5: the outcome 5 of the random source gives identifier 5,
which lies in the range. -/
theorem randomIdentifier_range_witness :
    randomIdentifier (.num 5 (by decide)) = .ok 5 ∧ (0 : Int) ≤ 5 ∧ (5 : Int) ≤ 2 ^ 31 - 2 :=
  ⟨rfl, (randomIdentifier_range sampleWorld 0 5).1 (.num 5 (by decide)) rfl⟩

/-! ## Claims on the result drain -/

/-- C5: drain selects and clears.  On a registered instance whose slot holds
the result `r`, `getFfiResult(pointer, ident)` returns 0 and writes to the
guest memory of that instance, at `pointer`, exactly the payload bytes of `r`
when `r` has no error and exactly the bytes of the error text when it has one
(reading them back gives them, every offset outside keeps its byte); the slot
is empty afterwards (`HasFFIResult` is false), and the registry and the other
instances are as they were. -/
theorem getFfiResult_selects_and_clears {Req : Type} (w : World Req) (pointer ident : Int)
    (inst : Handle) (r : FFIResult) (hreg : w.instanceMapper ident = some inst)
    (hslot : (w.heap inst).ctx.ffiResult = some r) :
    ∃ data : Bytes,
      (r.Err = none → data = sliceBytes r.Result) ∧
      (∀ e : GoError, r.Err = some e → data = bytesOfString e.Error) ∧
      (getFfiResult w pointer ident).1 = 0 ∧
      ((getFfiResult w pointer ident).2.heap inst).memory =
        WriteMemoryAtLocation (w.heap inst).memory pointer data ∧
      ReadMemory ((getFfiResult w pointer ident).2.heap inst).memory pointer (data.length : Int) =
        data ∧
      (∀ a : Int, ¬ (pointer ≤ a ∧ a < pointer + (data.length : Int)) →
        ((getFfiResult w pointer ident).2.heap inst).memory a = (w.heap inst).memory a) ∧
      ((getFfiResult w pointer ident).2.heap inst).ctx.ffiResult = none ∧
      ((getFfiResult w pointer ident).2.heap inst).ctx.HasFFIResult = false ∧
      (getFfiResult w pointer ident).2.instanceMapper = w.instanceMapper ∧
      (∀ h : Handle, h ≠ inst → (getFfiResult w pointer ident).2.heap h = w.heap h) := by
  refine ⟨drainBytes r, ?_, ?_, ?_⟩
  · intro h; simp [drainBytes, h]
  · intro e h; simp [drainBytes, h]
  · rw [getFfiResult_of_pending w pointer ident inst r hreg hslot]
    refine ⟨rfl, by simp, ?_, ?_, by simp, by simp [Ctx.HasFFIResult], by simp, ?_⟩
    · simp only [setMemory_heap_same]
      exact ReadMemory_WriteMemoryAtLocation _ _ _
    · intro a ha
      simp only [setMemory_heap_same]
      exact WriteMemoryAtLocation_outside _ _ _ a ha
    · intro h hne
      rw [setMemory_heap_other _ _ _ _ hne, setCtx_heap_other _ _ _ _ hne]

/-- C5, on the sample registry with the error of a disabled capability pending
for identifier 7, drained at offset 16. -/
theorem getFfiResult_selects_and_clears_witness :
    (samplePending { Result := none, Err := some ErrCapabilityNotEnabled }).instanceMapper 7 =
        some 0 ∧
      ∃ data : Bytes,
        ((some ErrCapabilityNotEnabled : Option GoError) = none → data = sliceBytes none) ∧
        (∀ e : GoError, some ErrCapabilityNotEnabled = some e → data = bytesOfString e.Error) ∧
        (getFfiResult (samplePending { Result := none, Err := some ErrCapabilityNotEnabled })
          16 7).1 = 0 ∧
        ((getFfiResult (samplePending { Result := none, Err := some ErrCapabilityNotEnabled })
          16 7).2.heap 0).memory =
          WriteMemoryAtLocation
            ((samplePending { Result := none, Err := some ErrCapabilityNotEnabled }).heap 0).memory
            16 data ∧
        ReadMemory ((getFfiResult
          (samplePending { Result := none, Err := some ErrCapabilityNotEnabled })
          16 7).2.heap 0).memory 16 (data.length : Int) = data ∧
        (∀ a : Int, ¬ (16 ≤ a ∧ a < 16 + (data.length : Int)) →
          ((getFfiResult (samplePending { Result := none, Err := some ErrCapabilityNotEnabled })
            16 7).2.heap 0).memory a =
            ((samplePending { Result := none, Err := some ErrCapabilityNotEnabled }).heap
              0).memory a) ∧
        ((getFfiResult (samplePending { Result := none, Err := some ErrCapabilityNotEnabled })
          16 7).2.heap 0).ctx.ffiResult = none ∧
        ((getFfiResult (samplePending { Result := none, Err := some ErrCapabilityNotEnabled })
          16 7).2.heap 0).ctx.HasFFIResult = false ∧
        (getFfiResult (samplePending { Result := none, Err := some ErrCapabilityNotEnabled })
          16 7).2.instanceMapper =
          (samplePending { Result := none, Err := some ErrCapabilityNotEnabled }).instanceMapper ∧
        (∀ h : Handle, h ≠ 0 →
          (getFfiResult (samplePending { Result := none, Err := some ErrCapabilityNotEnabled })
            16 7).2.heap h =
            (samplePending { Result := none, Err := some ErrCapabilityNotEnabled }).heap h) :=
  ⟨rfl, getFfiResult_selects_and_clears
    (samplePending { Result := none, Err := some ErrCapabilityNotEnabled }) 16 7 0
    { Result := none, Err := some ErrCapabilityNotEnabled } rfl rfl⟩

/-- C6: drain exhaustion.  For an identifier that is not registered, or is
registered with an empty slot, `getFfiResult` returns -1 and leaves the whole
state (guest memory, slot, registry) as it was. -/
theorem getFfiResult_nothing_pending {Req : Type} (w : World Req) (pointer ident : Int)
    (h : w.instanceMapper ident = none ∨
      ∃ inst : Handle, w.instanceMapper ident = some inst ∧ (w.heap inst).ctx.ffiResult = none) :
    getFfiResult w pointer ident = (-1, w) :=
  getFfiResult_of_nothing w pointer ident h

/-- C6, on the sample registry: identifier 7 is registered with an empty
slot. -/
theorem getFfiResult_nothing_pending_witness :
    (sampleWorld.instanceMapper 7 = some 0 ∧ (sampleWorld.heap 0).ctx.ffiResult = none) ∧
      getFfiResult sampleWorld 16 7 = (-1, sampleWorld) :=
  ⟨⟨rfl, rfl⟩, getFfiResult_nothing_pending sampleWorld 16 7 (Or.inr ⟨0, rfl, rfl⟩)⟩

/-! ## Claims on the field accessors -/

/-- C1: single-slot discipline.  When `requestGetField` returned a size (a
non-negative value), it populated the slot of the instance the identifier
names; a `requestGetField` that follows at once on the same identifier, with
any arguments, returns -1, `ForIdentifier(ident, true)` rejecting the instance
whose slot is occupied, and leaves the whole state, the stored result
included, as it was; a `getFfiResult` on that identifier then returns 0, and
after any `getFfiResult` on the identifier that returns 0,
`ForIdentifier(ident, true)` succeeds again. -/
theorem requestGetField_single_slot {Req : Type} (d : defaultAPI Req) (w : World Req)
    (fieldType keyPointer keySize ident : Int) (fieldType1 keyPointer1 keySize1 pointer : Int)
    (w0 : World Req)
    (hret : 0 ≤ (requestGetField d w fieldType keyPointer keySize ident).1) :
    (∃ (inst : Handle) (r : FFIResult),
        (requestGetField d w fieldType keyPointer keySize ident).2.instanceMapper ident =
          some inst ∧
        (((requestGetField d w fieldType keyPointer keySize ident).2.heap inst).ctx.ffiResult =
          some r)) ∧
      ForIdentifier (requestGetField d w fieldType keyPointer keySize ident).2 ident true =
        .error (.New "cannot use instance for host call with existing call in progress") ∧
      requestGetField d (requestGetField d w fieldType keyPointer keySize ident).2
          fieldType1 keyPointer1 keySize1 ident =
        (-1, (requestGetField d w fieldType keyPointer keySize ident).2) ∧
      (getFfiResult (requestGetField d w fieldType keyPointer keySize ident).2 pointer ident).1 =
        0 ∧
      ((getFfiResult w0 pointer ident).1 = 0 →
        ∃ inst : Handle, ForIdentifier (getFfiResult w0 pointer ident).2 ident true = .ok inst) := by
  have hdrained : ∀ w0 : World Req, (getFfiResult w0 pointer ident).1 = 0 →
      ∃ inst : Handle, ForIdentifier (getFfiResult w0 pointer ident).2 ident true = .ok inst := by
    intro w0 h0
    obtain ⟨inst, r, hreg, hslot⟩ := getFfiResult_zero w0 pointer ident h0
    refine ⟨inst, ?_⟩
    rw [getFfiResult_of_pending w0 pointer ident inst r hreg hslot]
    apply ForIdentifier_true_of_empty
    · simpa using hreg
    · simp
  rcases requestGetField_cases d w fieldType keyPointer keySize ident with hfail | hok
  · rw [hfail] at hret
    simp at hret
  · obtain ⟨inst, val, hreg, -, hrun⟩ := hok
    rw [hrun]
    have hreg1 : (w.setCtx inst { (w.heap inst).ctx with
        ffiResult := some { Result := val, Err := none } }).instanceMapper ident = some inst := by
      simpa using hreg
    have hslot1 : ((w.setCtx inst { (w.heap inst).ctx with
        ffiResult := some { Result := val, Err := none } }).heap inst).ctx.ffiResult =
        some { Result := val, Err := none } := by simp
    have hrej := ForIdentifier_true_of_pending _ ident inst _ hreg1 hslot1
    refine ⟨⟨inst, _, hreg1, hslot1⟩, hrej, ?_, ?_, hdrained w0⟩
    · simp only [requestGetField, hrej]
    · rw [getFfiResult_of_pending _ pointer ident inst _ hreg1 hslot1]

/-- C1, on the sample registry: the field of type 0 is read twice for
identifier 7, then drained at offset 16. -/
theorem requestGetField_single_slot_witness :
    (0 : Int) ≤ (requestGetField sampleAPI sampleWorld 0 0 0 7).1 ∧
      ((∃ (inst : Handle) (r : FFIResult),
          (requestGetField sampleAPI sampleWorld 0 0 0 7).2.instanceMapper 7 = some inst ∧
          (((requestGetField sampleAPI sampleWorld 0 0 0 7).2.heap inst).ctx.ffiResult =
            some r)) ∧
        ForIdentifier (requestGetField sampleAPI sampleWorld 0 0 0 7).2 7 true =
          .error (.New "cannot use instance for host call with existing call in progress") ∧
        requestGetField sampleAPI (requestGetField sampleAPI sampleWorld 0 0 0 7).2 1 4 2 7 =
          (-1, (requestGetField sampleAPI sampleWorld 0 0 0 7).2) ∧
        (getFfiResult (requestGetField sampleAPI sampleWorld 0 0 0 7).2 16 7).1 = 0 ∧
        ((getFfiResult (samplePending { Result := some [1], Err := none }) 16 7).1 = 0 →
          ∃ inst : Handle,
            ForIdentifier (getFfiResult (samplePending { Result := some [1], Err := none })
              16 7).2 7 true = .ok inst)) :=
  ⟨by decide, requestGetField_single_slot sampleAPI sampleWorld 0 0 0 7 1 4 2 16
    (samplePending { Result := some [1], Err := none }) (by decide)⟩

/-- C4: not-found normalization.  On a registered instance with an empty slot,
when the policy's `GetField` fails with `ErrKeyNotFound`, `requestGetField`
puts into the slot a result with a zero-length payload and no error, and does
exactly what it does under a policy that returns the empty value with no
error; the `getFfiResult` that follows returns 0, leaves the guest memory as it
was (it writes no byte) and empties the slot. -/
theorem requestGetField_key_not_found {Req : Type} (d d1 : defaultAPI Req) (w : World Req)
    (fieldType keyPointer keySize ident pointer : Int) (inst : Handle)
    (hreg : w.instanceMapper ident = some inst) (hslot : (w.heap inst).ctx.ffiResult = none)
    (hpol : ((d.NewRequestHandler (RequestFromContext (w.heap inst).ctx.Context)).GetField
      fieldType (ReadMemory (w.heap inst).memory keyPointer keySize)).2 =
        some GoError.ErrKeyNotFound)
    (hpol1 : (d1.NewRequestHandler (RequestFromContext (w.heap inst).ctx.Context)).GetField
      fieldType (ReadMemory (w.heap inst).memory keyPointer keySize) = (some [], none)) :
    (((requestGetField d w fieldType keyPointer keySize ident).2.heap inst).ctx.ffiResult =
        some { Result := some [], Err := none }) ∧
      requestGetField d w fieldType keyPointer keySize ident =
        requestGetField d1 w fieldType keyPointer keySize ident ∧
      (getFfiResult (requestGetField d w fieldType keyPointer keySize ident).2 pointer ident).1 =
        0 ∧
      ((getFfiResult (requestGetField d w fieldType keyPointer keySize ident).2 pointer
        ident).2.heap inst).memory = (w.heap inst).memory ∧
      ((getFfiResult (requestGetField d w fieldType keyPointer keySize ident).2 pointer
        ident).2.heap inst).ctx.ffiResult = none := by
  have hrun := requestGetField_of_value d w fieldType keyPointer keySize ident inst (some [])
    hreg hslot (Or.inr ⟨hpol, rfl⟩)
  have hrun1 := requestGetField_of_value d1 w fieldType keyPointer keySize ident inst (some [])
    hreg hslot (Or.inl hpol1)
  have hreg1 : (w.setCtx inst { (w.heap inst).ctx with
      ffiResult := some { Result := some [], Err := none } }).instanceMapper ident =
      some inst := by simpa using hreg
  have hslot1 : ((w.setCtx inst { (w.heap inst).ctx with
      ffiResult := some { Result := some [], Err := none } }).heap inst).ctx.ffiResult =
      some { Result := some [], Err := none } := by simp
  rw [hrun1, hrun, getFfiResult_of_pending _ pointer ident inst _ hreg1 hslot1]
  refine ⟨hslot1, rfl, rfl, ?_, by simp⟩
  simp only [setMemory_heap_same, setCtx_heap_same]
  exact WriteMemoryAtLocation_nil _ _

/-- C4, on the sample registry: field type 1 has no such key. -/
theorem requestGetField_key_not_found_witness :
    ((sampleAPI.NewRequestHandler (RequestFromContext (sampleWorld.heap 0).ctx.Context)).GetField
        1 (ReadMemory (sampleWorld.heap 0).memory 4 2)).2 = some GoError.ErrKeyNotFound ∧
      ((((requestGetField sampleAPI sampleWorld 1 4 2 7).2.heap 0).ctx.ffiResult =
          some { Result := some [], Err := none }) ∧
        requestGetField sampleAPI sampleWorld 1 4 2 7 =
          requestGetField sampleAPIEmpty sampleWorld 1 4 2 7 ∧
        (getFfiResult (requestGetField sampleAPI sampleWorld 1 4 2 7).2 16 7).1 = 0 ∧
        ((getFfiResult (requestGetField sampleAPI sampleWorld 1 4 2 7).2 16 7).2.heap 0).memory =
          (sampleWorld.heap 0).memory ∧
        ((getFfiResult (requestGetField sampleAPI sampleWorld 1 4 2 7).2 16
          7).2.heap 0).ctx.ffiResult = none) :=
  ⟨rfl, requestGetField_key_not_found sampleAPI sampleAPIEmpty sampleWorld 1 4 2 7 16 0 rfl rfl
    rfl rfl⟩

/-- C2 fails on the code: on the sample registry (identifier 7, empty slot),
under a policy whose `SetField` fails with "capability is not enabled",
`requestSetField` returns 0 and leaves in the slot a result with no payload
and no error; the `getFfiResult` that follows returns 0 and writes no byte, so
the guest memory is as it was and the error text is nowhere. -/
theorem requestSetField_drops_policy_error :
    ((sampleAPI.NewRequestHandler (RequestFromContext (sampleWorld.heap 0).ctx.Context)).SetField
        2 (ReadMemory (sampleWorld.heap 0).memory 0 3)
        (ReadMemory (sampleWorld.heap 0).memory 8 2)).2 = some ErrCapabilityNotEnabled ∧
      (requestSetField sampleAPI sampleWorld 2 0 3 8 2 7).1 = 0 ∧
      ((requestSetField sampleAPI sampleWorld 2 0 3 8 2 7).2.heap 0).ctx.ffiResult =
        some { Result := none, Err := none } ∧
      (getFfiResult (requestSetField sampleAPI sampleWorld 2 0 3 8 2 7).2 16 7).1 = 0 ∧
      ((getFfiResult (requestSetField sampleAPI sampleWorld 2 0 3 8 2 7).2 16 7).2.heap 0).memory =
        (sampleWorld.heap 0).memory ∧
      bytesOfString ErrCapabilityNotEnabled.Error ≠ [] := by
  have hset := requestSetField_of_empty sampleAPI sampleWorld 2 0 3 8 2 7 0 rfl rfl
  have hdrain := getFfiResult_of_pending (requestSetField sampleAPI sampleWorld 2 0 3 8 2 7).2
    16 7 0 { Result := none, Err := none } rfl hset.2
  refine ⟨rfl, hset.1, hset.2, ?_, ?_, by decide⟩
  · rw [hdrain]
  · rw [hdrain]
    simp only [setMemory_heap_same, setCtx_heap_same]
    exact WriteMemoryAtLocation_nil _ _

/-- C3 fails on the code: on the sample registry (identifier 7, empty slot),
under a policy whose `GetField` fails with "capability is not enabled" (not
`ErrKeyNotFound`), `requestGetField` returns -1 and changes nothing: the slot
stays empty, the returned value is not the length of the error text (25), and
the `getFfiResult` that follows returns -1 and writes nothing. -/
theorem requestGetField_drops_policy_error :
    ((sampleAPI.NewRequestHandler (RequestFromContext (sampleWorld.heap 0).ctx.Context)).GetField
        2 (ReadMemory (sampleWorld.heap 0).memory 0 3)).2 = some ErrCapabilityNotEnabled ∧
      ErrCapabilityNotEnabled ≠ GoError.ErrKeyNotFound ∧
      requestGetField sampleAPI sampleWorld 2 0 3 7 = (-1, sampleWorld) ∧
      (sampleWorld.heap 0).ctx.ffiResult = none ∧
      ((bytesOfString ErrCapabilityNotEnabled.Error).length : Int) = 25 ∧
      getFfiResult (requestGetField sampleAPI sampleWorld 2 0 3 7).2 16 7 = (-1, sampleWorld) := by
  have hrun := requestGetField_of_policy_error sampleAPI sampleWorld 2 0 3 7 0
    ErrCapabilityNotEnabled rfl rfl rfl (by decide)
  refine ⟨rfl, by decide, hrun, rfl, by decide, ?_⟩
  rw [hrun]
  exact getFfiResult_of_nothing sampleWorld 16 7 (Or.inr ⟨0, rfl, rfl⟩)

/-! ## Claims on the options -/

/-- What a successful `finalize` leaves in the fields a modifier can set: the
field as the modifiers left it, unless that is the zero value, in which case
the value of the environment; the bundle path is never taken from the
environment. -/
theorem finalize_ok_fields (envOpts o o1 : Options)
    (h : Options.finalize (.ok envOpts) o = .ok o1) :
    o1.HTTPPort = (if o.HTTPPort = 0 then envOpts.HTTPPort else o.HTTPPort) ∧
      o1.TLSPort = (if o.TLSPort = 0 then envOpts.TLSPort else o.TLSPort) ∧
      o1.AppName = (if o.AppName = "" then envOpts.AppName else o.AppName) ∧
      o1.Domain = (if o.Domain = "" then envOpts.Domain else o.Domain) ∧
      o1.BundlePath = o.BundlePath := by
  unfold Options.finalize at h
  simp -zeta only [] at h
  lift_lets at h
  extract_lets a1 a2 a3 a4 a5 a6 a7 at h
  obtain rfl := Except.ok.inj h
  refine ⟨?_, ?_, ?_, ?_, ?_⟩
  · simp only [a7, a6, a5, a4, a3, a2, a1, apply_ite Options.HTTPPort, ite_self]
  · simp only [a7, a6, a5, a4, a3, a2, a1, apply_ite Options.TLSPort, ite_self]
  · simp only [a7, a6, a5, a4, a3, a2, a1, apply_ite Options.AppName, ite_self]
  · simp only [a7, a6, a5, a4, a3, a2, a1, apply_ite Options.Domain, ite_self]
  · simp only [a7, a6, a5, a4, a3, a2, a1, apply_ite Options.BundlePath, ite_self]

/-- When the environment loads, `finalize` succeeds. -/
theorem finalize_fields (envOpts o : Options) :
    ∃ o1 : Options, Options.finalize (.ok envOpts) o = .ok o1 ∧
      o1.HTTPPort = (if o.HTTPPort = 0 then envOpts.HTTPPort else o.HTTPPort) ∧
      o1.TLSPort = (if o.TLSPort = 0 then envOpts.TLSPort else o.TLSPort) ∧
      o1.AppName = (if o.AppName = "" then envOpts.AppName else o.AppName) ∧
      o1.Domain = (if o.Domain = "" then envOpts.Domain else o.Domain) ∧
      o1.BundlePath = o.BundlePath :=
  ⟨_, rfl, finalize_ok_fields envOpts o _ rfl⟩

/-- The options `NewWithModifiers` returns when the environment loads. -/
theorem NewWithModifiers_fields (envOpts : Options) (mods : List Modifier) :
    ∃ o1 : Options, NewWithModifiers (.ok envOpts) mods = .ok o1 ∧
      o1.HTTPPort = (if (mods.foldl (fun opts mod => mod opts) Options.zero).HTTPPort = 0
        then envOpts.HTTPPort else (mods.foldl (fun opts mod => mod opts) Options.zero).HTTPPort) ∧
      o1.TLSPort = (if (mods.foldl (fun opts mod => mod opts) Options.zero).TLSPort = 0
        then envOpts.TLSPort else (mods.foldl (fun opts mod => mod opts) Options.zero).TLSPort) ∧
      o1.AppName = (if (mods.foldl (fun opts mod => mod opts) Options.zero).AppName = ""
        then envOpts.AppName else (mods.foldl (fun opts mod => mod opts) Options.zero).AppName) ∧
      o1.Domain = (if (mods.foldl (fun opts mod => mod opts) Options.zero).Domain = ""
        then envOpts.Domain else (mods.foldl (fun opts mod => mod opts) Options.zero).Domain) ∧
      o1.BundlePath = (mods.foldl (fun opts mod => mod opts) Options.zero).BundlePath := by
  obtain ⟨o1, hfin, h⟩ := finalize_fields envOpts (mods.foldl (fun opts mod => mod opts) Options.zero)
  exact ⟨o1, by simp only [NewWithModifiers, hfin], h⟩

/-- C10 as stated fails at the zero values: in an environment that sets no
variable, `NewWithModifiers(HTTPPort(0))` returns options whose `HTTPPort` is
8080, `NewWithModifiers(TLSPort(0))` options whose `TLSPort` is 443 and
`NewWithModifiers(AppName(""))` options whose `AppName` is "E2Core": the value
of the environment is used although a modifier set the field. -/
theorem NewWithModifiers_zero_value_overridden :
    (∃ o : Options, NewWithModifiers (.ok Options.envDefault) [HTTPPort 0] = .ok o ∧
        o.HTTPPort = 8080 ∧ o.HTTPPort ≠ 0) ∧
      (∃ o : Options, NewWithModifiers (.ok Options.envDefault) [TLSPort 0] = .ok o ∧
        o.TLSPort = 443 ∧ o.TLSPort ≠ 0) ∧
      (∃ o : Options, NewWithModifiers (.ok Options.envDefault) [AppName ""] = .ok o ∧
        o.AppName = "E2Core" ∧ o.AppName ≠ "") :=
  ⟨⟨_, rfl, rfl, by decide⟩, ⟨_, rfl, rfl, by decide⟩, ⟨_, rfl, rfl, by decide⟩⟩

/-- C10, amended: in every environment that loads, `NewWithModifiers` with the
one modifier `HTTPPort(p)`, `p` not 0, returns options whose `HTTPPort` is `p`;
likewise `TLSPort(q)` for `q` not 0, `AppName(n)` for `n` not empty and
`Domain(dom)` for `dom` not empty; `UseBundlePath(path)` gives `BundlePath`
equal to `path` for every `path`.  The value of the environment is used for
`HTTPPort`, `TLSPort`, `AppName` and `Domain` when no modifier set the field or
a modifier set it to 0 or to the empty string; it is never used for
`BundlePath`. -/
theorem NewWithModifiers_modifier_value (envOpts : Options) (p q : Int) (n dom path : String)
    (hp : p ≠ 0) (hq : q ≠ 0) (hn : n ≠ "") (hdom : dom ≠ "") :
    (∃ o : Options, NewWithModifiers (.ok envOpts) [HTTPPort p] = .ok o ∧ o.HTTPPort = p) ∧
      (∃ o : Options, NewWithModifiers (.ok envOpts) [TLSPort q] = .ok o ∧ o.TLSPort = q) ∧
      (∃ o : Options, NewWithModifiers (.ok envOpts) [AppName n] = .ok o ∧ o.AppName = n) ∧
      (∃ o : Options, NewWithModifiers (.ok envOpts) [Domain dom] = .ok o ∧ o.Domain = dom) ∧
      (∃ o : Options, NewWithModifiers (.ok envOpts) [UseBundlePath path] = .ok o ∧
        o.BundlePath = path) ∧
      (∃ o : Options, NewWithModifiers (.ok envOpts) [] = .ok o ∧
        o.HTTPPort = envOpts.HTTPPort ∧ o.TLSPort = envOpts.TLSPort ∧
        o.AppName = envOpts.AppName ∧ o.Domain = envOpts.Domain ∧ o.BundlePath = "") ∧
      (∃ o : Options, NewWithModifiers (.ok envOpts) [HTTPPort 0] = .ok o ∧
        o.HTTPPort = envOpts.HTTPPort) ∧
      (∃ o : Options, NewWithModifiers (.ok envOpts) [TLSPort 0] = .ok o ∧
        o.TLSPort = envOpts.TLSPort) ∧
      (∃ o : Options, NewWithModifiers (.ok envOpts) [AppName ""] = .ok o ∧
        o.AppName = envOpts.AppName) ∧
      (∃ o : Options, NewWithModifiers (.ok envOpts) [Domain ""] = .ok o ∧
        o.Domain = envOpts.Domain) := by
  refine ⟨?_, ?_, ?_, ?_, ?_, ?_, ?_, ?_, ?_, ?_⟩
  · obtain ⟨o, ho, h1, -⟩ := NewWithModifiers_fields envOpts [HTTPPort p]
    exact ⟨o, ho, by simpa [HTTPPort, hp] using h1⟩
  · obtain ⟨o, ho, -, h2, -⟩ := NewWithModifiers_fields envOpts [TLSPort q]
    exact ⟨o, ho, by simpa [TLSPort, hq] using h2⟩
  · obtain ⟨o, ho, -, -, h3, -⟩ := NewWithModifiers_fields envOpts [AppName n]
    exact ⟨o, ho, by simpa [AppName, hn] using h3⟩
  · obtain ⟨o, ho, -, -, -, h4, -⟩ := NewWithModifiers_fields envOpts [Domain dom]
    exact ⟨o, ho, by simpa [Domain, hdom] using h4⟩
  · obtain ⟨o, ho, -, -, -, -, h5⟩ := NewWithModifiers_fields envOpts [UseBundlePath path]
    exact ⟨o, ho, by simpa [UseBundlePath] using h5⟩
  · obtain ⟨o, ho, h1, h2, h3, h4, h5⟩ := NewWithModifiers_fields envOpts []
    exact ⟨o, ho, by simpa [Options.zero] using h1, by simpa [Options.zero] using h2,
      by simpa [Options.zero] using h3, by simpa [Options.zero] using h4,
      by simpa [Options.zero] using h5⟩
  · obtain ⟨o, ho, h1, -⟩ := NewWithModifiers_fields envOpts [HTTPPort 0]
    exact ⟨o, ho, by simpa [HTTPPort] using h1⟩
  · obtain ⟨o, ho, -, h2, -⟩ := NewWithModifiers_fields envOpts [TLSPort 0]
    exact ⟨o, ho, by simpa [TLSPort] using h2⟩
  · obtain ⟨o, ho, -, -, h3, -⟩ := NewWithModifiers_fields envOpts [AppName ""]
    exact ⟨o, ho, by simpa [AppName] using h3⟩
  · obtain ⟨o, ho, -, -, -, h4, -⟩ := NewWithModifiers_fields envOpts [Domain ""]
    exact ⟨o, ho, by simpa [Domain] using h4⟩

/-- C10, amended, in an environment that sets no variable: ports 9090 and 8443,
name "core", domain "example.com", bundle path "./bundle". -/
theorem NewWithModifiers_modifier_value_witness :
    ((9090 : Int) ≠ 0 ∧ (8443 : Int) ≠ 0 ∧ "core" ≠ "" ∧ "example.com" ≠ "") ∧
      ((∃ o : Options, NewWithModifiers (.ok Options.envDefault) [HTTPPort 9090] = .ok o ∧
          o.HTTPPort = 9090) ∧
        (∃ o : Options, NewWithModifiers (.ok Options.envDefault) [TLSPort 8443] = .ok o ∧
          o.TLSPort = 8443) ∧
        (∃ o : Options, NewWithModifiers (.ok Options.envDefault) [AppName "core"] = .ok o ∧
          o.AppName = "core") ∧
        (∃ o : Options, NewWithModifiers (.ok Options.envDefault) [Domain "example.com"] = .ok o ∧
          o.Domain = "example.com") ∧
        (∃ o : Options,
          NewWithModifiers (.ok Options.envDefault) [UseBundlePath "./bundle"] = .ok o ∧
          o.BundlePath = "./bundle") ∧
        (∃ o : Options, NewWithModifiers (.ok Options.envDefault) [] = .ok o ∧
          o.HTTPPort = Options.envDefault.HTTPPort ∧ o.TLSPort = Options.envDefault.TLSPort ∧
          o.AppName = Options.envDefault.AppName ∧ o.Domain = Options.envDefault.Domain ∧
          o.BundlePath = "") ∧
        (∃ o : Options, NewWithModifiers (.ok Options.envDefault) [HTTPPort 0] = .ok o ∧
          o.HTTPPort = Options.envDefault.HTTPPort) ∧
        (∃ o : Options, NewWithModifiers (.ok Options.envDefault) [TLSPort 0] = .ok o ∧
          o.TLSPort = Options.envDefault.TLSPort) ∧
        (∃ o : Options, NewWithModifiers (.ok Options.envDefault) [AppName ""] = .ok o ∧
          o.AppName = Options.envDefault.AppName) ∧
        (∃ o : Options, NewWithModifiers (.ok Options.envDefault) [Domain ""] = .ok o ∧
          o.Domain = Options.envDefault.Domain)) :=
  ⟨⟨by decide, by decide, by decide, by decide⟩,
    NewWithModifiers_modifier_value Options.envDefault 9090 8443 "core" "example.com" "./bundle"
      (by decide) (by decide) (by decide) (by decide)⟩

end E2Core
